import Mathlib

/-!
# Verification of the audio-patch VOX pipeline

A shallow embedding of `src/audio_patch.py` (classes `SoundDeviceSource`
and `VoxSource`) together with proofs about its voice-operated-switch
(VOX) state machine, channel upmix, and detection loop.

Frames are modelled at the level the Python code observes them:
`bytes` objects become `List Nat` (each element a byte value `0..255`),
and 16-bit signed PCM samples become `Int` values encoded to bytes in
little-endian two's complement, exactly as `numpy`'s `int16 ... tobytes()`
produces them.
-/

set_option autoImplicit false

/-- Python's `max` over a byte string, totalised with `max [] = 0`.
The source only ever applies `max` to non-empty buffers. -/
def listMax (l : List Nat) : Nat := l.foldr max 0

/-- Low byte of the little-endian two's-complement 16-bit encoding of a
sample, as `numpy` `int16` serialisation produces it. -/
def byteLo (s : Int) : Nat := (s % 65536).toNat % 256

/-- High byte of the little-endian two's-complement 16-bit encoding of a
sample. -/
def byteHi (s : Int) : Nat := (s % 65536).toNat / 256

/-- `numpy` `int16` array serialisation (`.tobytes()`): each sample becomes
two little-endian bytes. -/
def toBytes : List Int → List Nat
  | [] => []
  | s :: rest => byteLo s :: byteHi s :: toBytes rest

/-- `np.repeat(data, 2, 1)` on an `(n, 1)` `int16` array, flattened row-major:
every mono sample is duplicated into two adjacent (interleaved) slots.
This is the upmix step of `SoundDeviceSource.read`. -/
def npRepeat2 : List Int → List Int
  | [] => []
  | x :: xs => x :: x :: npRepeat2 xs

/-- The hardware input stream consumed by `SoundDeviceSource`: an endless
supply of mono 16-bit samples and a read position. Models the
`sounddevice.InputStream` the constructor opens (48 kHz, 1 channel,
`int16`); its blocking `read(n)` waits until `n` frames are available and
returns exactly `n` of them. -/
structure InStream where
  samples : Nat → Int
  pos : Nat

/-- `stream.read(n)`: return exactly `n` mono samples from the current
position and advance the stream. -/
def InStream.read (st : InStream) (n : Nat) : List Int × InStream :=
  ((List.range n).map fun i => st.samples (st.pos + i), ⟨st.samples, st.pos + n⟩)

/-- `SoundDeviceSource.read`: pull exactly 960 mono samples, duplicate each
sample into two interleaved channel slots (`np.repeat(data, 2, 1)`), and
return the result as raw bytes. -/
def SoundDeviceSource.read (st : InStream) : List Nat × InStream :=
  let r := st.read 960
  (toBytes (npRepeat2 r.1), r.2)

/-- The mutable state of a `VoxSource` gate: `active`, `threshold`,
`duration` (hangover frame count) and `silent_for`, exactly the fields
`VoxSource.__init__` creates. -/
structure VoxState where
  active : Bool
  threshold : Nat
  duration : Nat
  silent_for : Nat
deriving DecidableEq, Repr

/-- The state `VoxSource.__init__` builds before its `is_opus` check:
`active=False`, `threshold=16`, `duration=25`, `silent_for=0`. -/
def VoxSource.initState : VoxState :=
  { active := false, threshold := 16, duration := 25, silent_for := 0 }

/-- `VoxSource.__init__`: constructing a gate over a source whose
`is_opus()` is true raises `ValueError` before the object becomes usable;
otherwise the gate starts Inactive with `threshold=16`, `duration=25`,
`silent_for=0`. The argument is the wrapped source's `is_opus()` value. -/
def VoxSource.init (srcIsOpus : Bool) : Except String VoxState :=
  if srcIsOpus then
    Except.error "cannot use VoxSource with an Opus source"
  else
    Except.ok VoxSource.initState

/-- `VoxSource.read`, given the byte frame the wrapped source returned:
while Active, a frame whose `max` byte is below `threshold` increments
`silent_for`, and once `silent_for >= duration` the gate flips Inactive and
returns an empty buffer (the code does not reset `silent_for` there); a
frame at/above threshold resets `silent_for` to 0. While Inactive the frame
passes through untouched. Returns the new state and the returned buffer. -/
def VoxSource.read (s : VoxState) (data : List Nat) : VoxState × List Nat :=
  if s.active then
    if listMax data < s.threshold then
      if s.duration ≤ s.silent_for + 1 then
        ({ s with active := false, silent_for := s.silent_for + 1 }, [])
      else
        ({ s with silent_for := s.silent_for + 1 }, data)
    else
      ({ s with silent_for := 0 }, data)
  else
    (s, data)

/-- Iterate `VoxSource.read` over a list of wrapped-source frames,
collecting the buffers each call returns. -/
def VoxSource.readRun : VoxState → List (List Nat) → VoxState × List (List Nat)
  | s, [] => (s, [])
  | s, f :: fs =>
    let r := VoxSource.read s f
    let rest := VoxSource.readRun r.1 fs
    (rest.1, r.2 :: rest.2)

/-- One iteration of the `VoxSource.on_vox` detection loop, given the frame
the wrapped source would deliver: if the gate is Inactive it samples one
frame through `self.read()` and, when the frame's `max` byte reaches
`threshold`, sets `active=True` and calls `self.voice.play(self)`; while
Active the iteration does nothing. The boolean records whether `play` was
called this iteration. -/
def VoxSource.on_vox_step (s : VoxState) (data : List Nat) : VoxState × Bool :=
  if s.active then
    (s, false)
  else
    let r := VoxSource.read s data
    if r.1.threshold ≤ listMax r.2 then
      ({ r.1 with active := true }, true)
    else
      (r.1, false)

/-- Iterate the detection loop over a list of frames, counting how many
iterations called `self.voice.play(self)`. -/
def VoxSource.on_vox_run : VoxState → List (List Nat) → VoxState × Nat
  | s, [] => (s, 0)
  | s, f :: fs =>
    let r := VoxSource.on_vox_step s f
    let rest := VoxSource.on_vox_run r.1 fs
    (rest.1, (if r.2 then 1 else 0) + rest.2)

/-- The duration passed to `asyncio.sleep` at the end of each `on_vox`
iteration: literally `loop.time() - start_time + 0.002`, i.e. the elapsed
time plus 2 ms. Timestamps are modelled as exact rationals (seconds). -/
def VoxSource.sleepFor (start_time now : ℚ) : ℚ :=
  now - start_time + 2 / 1000

/-! ## Helper lemmas -/

theorem listMax_cons (b : Nat) (l : List Nat) : listMax (b :: l) = max b (listMax l) := rfl

theorem listMax_lt_iff (t : Nat) (l : List Nat) (ht : 0 < t) :
    listMax l < t ↔ ∀ b ∈ l, b < t := by
  induction l with
  | nil => simpa [listMax]
  | cons b l ih =>
    simp [listMax_cons, Nat.max_lt, ih]

theorem toBytes_length (xs : List Int) : (toBytes xs).length = 2 * xs.length := by
  induction xs with
  | nil => rfl
  | cons x xs ih => simp [toBytes, ih]; ring

theorem npRepeat2_length (xs : List Int) : (npRepeat2 xs).length = 2 * xs.length := by
  induction xs with
  | nil => rfl
  | cons x xs ih => simp [npRepeat2, ih]; ring

theorem npRepeat2_get (xs : List Int) (i : Nat) :
    (npRepeat2 xs).get? (2 * i) = xs.get? i ∧
    (npRepeat2 xs).get? (2 * i + 1) = xs.get? i := by
  induction xs generalizing i with
  | nil => simp [npRepeat2]
  | cons x xs ih =>
    cases i with
    | zero => simp [npRepeat2]
    | succ n =>
      have h2 : 2 * (n + 1) = 2 * n + 1 + 1 := by ring
      rw [npRepeat2, h2]
      simpa using ih n

theorem read_inactive (s : VoxState) (data : List Nat) (h : s.active = false) :
    VoxSource.read s data = (s, data) := by
  simp [VoxSource.read, h]

theorem read_loud (s : VoxState) (data : List Nat) (hA : s.active = true)
    (hl : s.threshold ≤ listMax data) :
    VoxSource.read s data = ({ s with silent_for := 0 }, data) := by
  simp [VoxSource.read, hA, Nat.not_lt.mpr hl]

theorem read_below_stay (s : VoxState) (data : List Nat) (hA : s.active = true)
    (hb : listMax data < s.threshold) (hd : s.silent_for + 1 < s.duration) :
    VoxSource.read s data = ({ s with silent_for := s.silent_for + 1 }, data) := by
  simp [VoxSource.read, hA, hb, Nat.not_le.mpr hd]

theorem read_below_off (s : VoxState) (data : List Nat) (hA : s.active = true)
    (hb : listMax data < s.threshold) (hd : s.duration ≤ s.silent_for + 1) :
    VoxSource.read s data =
      ({ s with active := false, silent_for := s.silent_for + 1 }, []) := by
  simp [VoxSource.read, hA, hb, hd]

/-- Iterating `read` from an Active gate over below-threshold frames that
exactly exhaust the hangover: the gate ends Inactive with `silent_for`
equal to `duration` (never reset), the first `n-1` calls pass their frames
through, and the last call returns the empty buffer. -/
theorem readRun_quiet (frames : List (List Nat)) (s : VoxState)
    (hA : s.active = true)
    (hq : ∀ f ∈ frames, listMax f < s.threshold)
    (hlen : s.silent_for + frames.length = s.duration)
    (hne : frames ≠ []) :
    VoxSource.readRun s frames =
      ({ s with active := false, silent_for := s.duration },
       frames.dropLast ++ [[]]) := by
  induction frames generalizing s with
  | nil => exact absurd rfl hne
  | cons f fs ih =>
    rcases fs with _ | ⟨g, gs⟩
    · have hd : s.duration ≤ s.silent_for + 1 := by
        simp at hlen; omega
      have hlen1 : s.silent_for + 1 = s.duration := by
        simp at hlen; omega
      simp [VoxSource.readRun, read_below_off s f hA (hq f (by simp)) hd,
            VoxSource.readRun, hlen1]
    · have hd : s.silent_for + 1 < s.duration := by
        simp at hlen; omega
      rw [VoxSource.readRun, read_below_stay s f hA (hq f (by simp)) hd]
      rw [ih { s with silent_for := s.silent_for + 1 } hA
            (fun x hx => hq x (by simp [hx]))
            (by simp at hlen ⊢; omega) (by simp)]
      simp [List.dropLast]

theorem on_vox_step_active (s : VoxState) (data : List Nat) (hA : s.active = true) :
    VoxSource.on_vox_step s data = (s, false) := by
  simp [VoxSource.on_vox_step, hA]

theorem on_vox_step_quiet (s : VoxState) (data : List Nat) (hI : s.active = false)
    (hq : listMax data < s.threshold) :
    VoxSource.on_vox_step s data = (s, false) := by
  simp [VoxSource.on_vox_step, hI, read_inactive s data hI, Nat.not_le.mpr hq]

theorem on_vox_step_trigger (s : VoxState) (data : List Nat) (hI : s.active = false)
    (hl : s.threshold ≤ listMax data) :
    VoxSource.on_vox_step s data = ({ s with active := true }, true) := by
  simp [VoxSource.on_vox_step, hI, read_inactive s data hI, hl]

theorem on_vox_run_active (s : VoxState) (frames : List (List Nat))
    (hA : s.active = true) :
    VoxSource.on_vox_run s frames = (s, 0) := by
  induction frames with
  | nil => rfl
  | cons f fs ih =>
    rw [VoxSource.on_vox_run, on_vox_step_active s f hA]
    simp [ih]

/-! ## Claims -/

/-- C1 (counterexample). Run the gate from a freshly activated state
(`active=true`, `threshold=16`, `duration=25`, `silent_for=0`) over 25
below-threshold frames: the deactivating call does NOT reset
`silent_for` to 0 — it is left at 25. -/
theorem C1_counterexample :
    (VoxSource.readRun ⟨true, 16, 25, 0⟩ (List.replicate 25 [0])).1.active = false ∧
    (VoxSource.readRun ⟨true, 16, 25, 0⟩ (List.replicate 25 [0])).1.silent_for ≠ 0 := by
  decide

/-- C1 (amended). For every run of the gate from a freshly activated state
over 25 consecutive below-threshold frames, the first 24 calls return their
frames unchanged, the 25th call sets `active=false` and returns a
zero-length frame but leaves `silent_for` at 25 (the code never resets it
on deactivation); a subsequent call observes `silent_for = 25` and leaves
the state unchanged. -/
theorem C1_gate_hangover (frames : List (List Nat)) (d : List Nat)
    (hlen : frames.length = 25)
    (hq : ∀ f ∈ frames, listMax f < 16) :
    (VoxSource.readRun ⟨true, 16, 25, 0⟩ frames).1 = ⟨false, 16, 25, 25⟩ ∧
    (VoxSource.readRun ⟨true, 16, 25, 0⟩ frames).2 = frames.dropLast ++ [[]] ∧
    VoxSource.read (VoxSource.readRun ⟨true, 16, 25, 0⟩ frames).1 d =
      ((VoxSource.readRun ⟨true, 16, 25, 0⟩ frames).1, d) := by
  have hrun := readRun_quiet frames ⟨true, 16, 25, 0⟩ rfl hq (by simpa using hlen)
    (by rintro rfl; simp at hlen)
  refine ⟨by rw [hrun], by rw [hrun], ?_⟩
  rw [hrun]
  exact read_inactive _ _ rfl

/-- C1 witness: the amended theorem at 25 all-zero frames and a subsequent
frame `[7]`. -/
theorem C1_gate_hangover_witness :
    (VoxSource.readRun ⟨true, 16, 25, 0⟩ (List.replicate 25 [0])).1 = ⟨false, 16, 25, 25⟩ ∧
    (VoxSource.readRun ⟨true, 16, 25, 0⟩ (List.replicate 25 [0])).2 =
      (List.replicate 25 [0]).dropLast ++ [[]] ∧
    VoxSource.read (VoxSource.readRun ⟨true, 16, 25, 0⟩ (List.replicate 25 [0])).1 [7] =
      ((VoxSource.readRun ⟨true, 16, 25, 0⟩ (List.replicate 25 [0])).1, [7]) :=
  C1_gate_hangover (List.replicate 25 [0]) [7] (by decide) (by decide)

/-- C2 (counterexample). A frame consisting of the single 16-bit sample −1
has every sample amplitude below the threshold 16 (|−1| = 1 < 16), yet its
little-endian byte encoding is `[255, 255]`, so the gate's comparison
`max(data) < threshold` classifies it as ABOVE threshold: from an Active
state one silent frame away from hangover, the gate resets `silent_for` to
0 and keeps transmitting instead of deactivating. -/
theorem C2_counterexample :
    (∀ a ∈ [(-1 : Int)], a.natAbs < 16) ∧
    ¬ listMax (toBytes [(-1 : Int)]) < 16 ∧
    VoxSource.read ⟨true, 16, 25, 24⟩ (toBytes [(-1 : Int)]) =
      (⟨true, 16, 25, 0⟩, toBytes [(-1 : Int)]) := by
  decide

/-- C2 (amended). Every gating decision — the Active→Inactive evaluation in
`read` and the Inactive→Active trigger in `on_vox` — compares the maximum
BYTE value of the frame's raw little-endian byte buffer (`max(data)` over a
Python `bytes`, each element 0..255) against `threshold`, not the peak
absolute 16-bit sample amplitude; in particular, for positive `threshold`, a
frame all of whose BYTES are below `threshold` is classified as below
threshold at both sites: while
Active it increments `silent_for`, and while Inactive it does not trigger
playback. -/
theorem C2_byte_threshold (s : VoxState) (data : List Nat)
    (ht : 0 < s.threshold) (hb : ∀ b ∈ data, b < s.threshold) :
    (s.active = true → (VoxSource.read s data).1.silent_for = s.silent_for + 1) ∧
    (s.active = false → VoxSource.on_vox_step s data = (s, false)) := by
  have hlt : listMax data < s.threshold := (listMax_lt_iff s.threshold data ht).2 hb
  constructor
  · intro hA
    by_cases hd : s.duration ≤ s.silent_for + 1
    · rw [read_below_off s data hA hlt hd]
    · rw [read_below_stay s data hA hlt (by omega)]
  · intro hI
    exact on_vox_step_quiet s data hI hlt

/-- C2 witness: the amended theorem applied while Active at frame
`[15, 0, 3]` (all bytes < 16) and while Inactive at the same frame. -/
theorem C2_byte_threshold_witness :
    (VoxSource.read ⟨true, 16, 25, 0⟩ [15, 0, 3]).1.silent_for =
      (⟨true, 16, 25, 0⟩ : VoxState).silent_for + 1 ∧
    VoxSource.on_vox_step ⟨false, 16, 25, 0⟩ [15, 0, 3] = (⟨false, 16, 25, 0⟩, false) :=
  ⟨(C2_byte_threshold ⟨true, 16, 25, 0⟩ [15, 0, 3] (by decide) (by decide)).1 rfl,
   (C2_byte_threshold ⟨false, 16, 25, 0⟩ [15, 0, 3] (by decide) (by decide)).2 rfl⟩

/-- C3 (counterexample). A fully reachable run: activate the gate from its
initial state with a loud frame, let 25 quiet frames deactivate it
(leaving `silent_for = 25`), then reactivate with another loud frame. The
Inactive→Active transition sets `active=true` and calls `play`, but leaves
`silent_for` at 25 — it does not reset it to 0. -/
theorem C3_counterexample :
    VoxSource.on_vox_step
      (VoxSource.readRun (VoxSource.on_vox_step VoxSource.initState [200]).1
        (List.replicate 25 [0])).1 [200] =
      (⟨true, 16, 25, 25⟩, true) := by
  decide

/-- C3 (amended). Every Inactive→Active transition performed by the
detection task (a sampled frame with `max(data) ≥ threshold` while the gate
is Inactive) sets `active=true` and instructs the session to begin pulling
(`play` is called), but leaves `silent_for` unchanged — the code does not
reset it to 0. -/
theorem C3_vox_on (s : VoxState) (data : List Nat)
    (hI : s.active = false) (hl : s.threshold ≤ listMax data) :
    VoxSource.on_vox_step s data = ({ s with active := true }, true) :=
  on_vox_step_trigger s data hI hl

/-- C3 witness: the amended theorem from the post-deactivation state
`⟨false, 16, 25, 25⟩` on the loud frame `[200]`. -/
theorem C3_vox_on_witness :
    VoxSource.on_vox_step ⟨false, 16, 25, 25⟩ [200] = (⟨true, 16, 25, 25⟩, true) :=
  C3_vox_on ⟨false, 16, 25, 25⟩ [200] rfl (by decide)

/-- C4 (code bug). The sleep passed to `asyncio.sleep` is literally
`loop.time() - start_time + 0.002`, i.e. elapsed PLUS 2 ms: after 1 ms of
work in the iteration the task sleeps 3 ms, not the `2 ms − elapsed = 1 ms`
the drift-corrected design describes. The recorded `start_time` only makes
sense for drift correction; the sign of the correction is flipped. -/
theorem C4_sleep_sign :
    VoxSource.sleepFor 0 (1 / 1000) = 3 / 1000 ∧
    VoxSource.sleepFor 0 (1 / 1000) ≠ 2 / 1000 - 1 / 1000 := by
  constructor <;> norm_num [VoxSource.sleepFor]

/-- C5. The upmix step of `SoundDeviceSource.read` (`np.repeat(data, 2, 1)`)
returns a buffer exactly twice the byte length of the input, with input
sample `i` appearing at output sample positions `2i` and `2i+1`
(per-sample interleaved duplication). -/
theorem C5_upmix (xs : List Int) (i : Nat) :
    (toBytes (npRepeat2 xs)).length = 2 * (toBytes xs).length ∧
    (npRepeat2 xs).get? (2 * i) = xs.get? i ∧
    (npRepeat2 xs).get? (2 * i + 1) = xs.get? i := by
  refine ⟨?_, (npRepeat2_get xs i).1, (npRepeat2_get xs i).2⟩
  rw [toBytes_length, toBytes_length, npRepeat2_length]

/-- C6. The capture step of `SoundDeviceSource.read` pulls exactly 960 mono
16-bit samples from the input stream — a 1920-byte mono frame once
reinterpreted as raw bytes — never a short, partial, or differently-shaped
read. (The blocking `sounddevice` stream is modelled as an endless sample
supply whose `read(n)` returns exactly `n` samples, its documented
behaviour.) -/
theorem C6_capture (st : InStream) :
    (st.read 960).1.length = 960 ∧
    (toBytes (st.read 960).1).length = 1920 := by
  constructor
  · simp [InStream.read]
  · rw [toBytes_length]
    simp [InStream.read]

/-- C7 (counterexample). A frame consisting of the single 16-bit sample 256
has peak absolute amplitude 256 ≥ 16, yet it encodes to the bytes `[0, 1]`,
whose maximum is 1 < 16: from the Active state `⟨true, 16, 25, 24⟩` this
amplitude-loud frame is treated as silent, so the gate DEACTIVATES and
returns the empty buffer instead of staying Active and passing the frame
through. -/
theorem C7_counterexample :
    (∀ a ∈ [(256 : Int)], 16 ≤ a.natAbs) ∧
    VoxSource.read ⟨true, 16, 25, 24⟩ (toBytes [(256 : Int)]) =
      (⟨false, 16, 25, 25⟩, []) := by
  decide

/-- C7 (amended). Every call of the gate's `read` returns either exactly
the byte buffer pulled from the wrapped source, unchanged, or the
zero-length "go silent" buffer; and whenever the gate is Active and the
pulled frame's maximum BYTE value is at/above threshold (the code's
`max(data) < threshold` test fails — the byte-level comparison, cf. C2, not
the peak 16-bit sample amplitude), the gate stays Active, resets
`silent_for` to 0, and returns the frame unmodified. -/
theorem C7_frame_integrity (s : VoxState) (data : List Nat) :
    ((VoxSource.read s data).2 = data ∨ (VoxSource.read s data).2 = []) ∧
    (s.active = true → s.threshold ≤ listMax data →
      VoxSource.read s data = ({ s with silent_for := 0 }, data)) := by
  constructor
  · unfold VoxSource.read
    split_ifs <;> simp
  · intro hA hl
    exact read_loud s data hA hl

/-- C7 witness: the theorem at the Active state `⟨true, 16, 25, 3⟩` and the
loud frame `[200]`, with its hypotheses discharged there. -/
theorem C7_frame_integrity_witness :
    ((VoxSource.read ⟨true, 16, 25, 3⟩ [200]).2 = [200] ∨
      (VoxSource.read ⟨true, 16, 25, 3⟩ [200]).2 = []) ∧
    VoxSource.read ⟨true, 16, 25, 3⟩ [200] = (⟨true, 16, 25, 0⟩, [200]) :=
  ⟨(C7_frame_integrity ⟨true, 16, 25, 3⟩ [200]).1,
   (C7_frame_integrity ⟨true, 16, 25, 3⟩ [200]).2 rfl (by decide)⟩

/-- C8. Constructing a `VoxSource` over a wrapped source whose `is_opus()`
is true always fails (`ValueError`, the spec's `UnsupportedSource`) at
construction time, and no constructed state escapes the failure; over a
non-Opus source construction succeeds with `active=false`, `threshold=16`,
`duration=25`, `silent_for=0`. -/
theorem C8_init_rejects_opus :
    VoxSource.init true = Except.error "cannot use VoxSource with an Opus source" ∧
    VoxSource.init false = Except.ok ⟨false, 16, 25, 0⟩ :=
  ⟨rfl, rfl⟩

/-- C9. For every Inactive period (any finite list of below-threshold
frames) followed by an above-threshold frame, the detection loop
transitions the gate to Active and calls `voice.play` exactly once over the
whole run — later iterations, as long as the gate stays Active, never call
it again. -/
theorem C9_play_once (s : VoxState) (quiet rest : List (List Nat)) (loud : List Nat)
    (hI : s.active = false)
    (hq : ∀ f ∈ quiet, listMax f < s.threshold)
    (hl : s.threshold ≤ listMax loud) :
    VoxSource.on_vox_run s (quiet ++ loud :: rest) = ({ s with active := true }, 1) := by
  induction quiet with
  | nil =>
    rw [List.nil_append, VoxSource.on_vox_run, on_vox_step_trigger s loud hI hl]
    simp [on_vox_run_active]
  | cons q qs ih =>
    rw [List.cons_append, VoxSource.on_vox_run,
        on_vox_step_quiet s q hI (hq q (by simp))]
    simpa using ih (fun f hf => hq f (by simp [hf]))

/-- C9 witness: the theorem from the initial gate state over one quiet
frame, the loud frame `[255]`, and one trailing frame. -/
theorem C9_play_once_witness :
    VoxSource.on_vox_run VoxSource.initState ([[0]] ++ [255] :: [[7]]) =
      (⟨true, 16, 25, 0⟩, 1) :=
  C9_play_once VoxSource.initState [[0]] [[7]] [255] rfl (by decide) (by decide)

/-- C10. Whenever `active = false`, a call to the gate's `read` returns the
wrapped source's frame unchanged and leaves every field of the gate's state
(`active`, `threshold`, `duration`, `silent_for`) unchanged — sampling
through the gate's own read path is observationally identical to sampling
the wrapped source directly. -/
theorem C10_inactive_passthrough (s : VoxState) (data : List Nat)
    (h : s.active = false) :
    VoxSource.read s data = (s, data) :=
  read_inactive s data h

/-- C10 witness: the theorem at the Inactive state `⟨false, 16, 25, 4⟩` and
the frame `[9, 200]`. -/
theorem C10_inactive_passthrough_witness :
    VoxSource.read ⟨false, 16, 25, 4⟩ [9, 200] = (⟨false, 16, 25, 4⟩, [9, 200]) :=
  C10_inactive_passthrough ⟨false, 16, 25, 4⟩ [9, 200] rfl
